import Mathlib

/-!
Shallow embedding of `src/render.rs` from the bart-kindle-timetable
repository: a transit-departure board renderer built on skia.

Modelling choices:
* The skia canvas is write-only in this code, so a canvas is modelled as
  the list of drawing commands issued against it (`DrawCmd`).
* Skia itself (glyph measurement, bitmap allocation, canvas construction,
  PNG encoding) is abstracted as an environment `SkiaEnv`; each fallible
  skia call is driven by the corresponding field.  Text-blob bounds are
  integer rectangles (the code immediately truncates the `f32` widths with
  `as i32`; claims only depend on the truncated values, which the abstract
  `measure` field returns directly).
* `tracing::warn!` is a side channel: drawing functions return the list of
  structured warnings they emit alongside their commands, and `stops_png`
  returns them next to the PNG bytes.
* Fallible Rust code (`Result<..>` with `eyre`) becomes `Except String`.
-/

namespace BartRender

/-- Modelled from the spec: a `Line` (LineInfo) is a line label and a
destination label, both display strings (struct used by `render.rs` but
defined in the `api_client` module, which is not part of the core). -/
structure Line where
  line : String
  destination : String
deriving DecidableEq, Repr

/-- Modelled from the spec: an `Upcoming` is an arrival estimate exposing an
integer minutes-until-arrival value (struct defined in `api_client`). -/
structure Upcoming where
  minutes : Int
deriving DecidableEq, Repr

/-- Modelled from the spec: a `SectionConfig` identifies one
(agency, direction) pair to display (struct defined in the `config` module). -/
structure SectionConfig where
  agency : String
  direction : String
deriving DecidableEq, Repr

/-- Modelled from the spec: a panel is an ordered sequence of sections. -/
structure Panel where
  sections : List SectionConfig
deriving DecidableEq, Repr

/-- Modelled from the spec: layout has positive pixel dimensions and two
panels; `render.rs` reads `layout.width`, `layout.height`,
`layout.left.sections` and `layout.right.sections`. -/
structure Layout where
  width : Int
  height : Int
  left : Panel
  right : Panel
deriving DecidableEq, Repr

/-- Modelled from the spec: the configuration file wrapping the layout. -/
structure ConfigFile where
  layout : Layout
deriving DecidableEq, Repr

/-- The dataset: agency id to direction id to ordered (line, upcomings)
pairs.  The Rust `HashMap`s (unique keys) are modelled as association
lists queried by first match. -/
abbrev DirectionMap := List (String × List (Line × List Upcoming))

abbrev StopData := List (String × DirectionMap)

/-- First-match lookup, the embedding of `HashMap::get`. -/
def lookupMap {β : Type} (m : List (String × β)) (k : String) : Option β :=
  match m with
  | [] => none
  | (k2, v) :: rest => if k2 = k then some v else lookupMap rest k

/-- The two paints built in `render.rs`: black is `Color4f(0,0,0,1)`, grey
is `Color4f(0.6,0.6,0.6,1)`. -/
inductive Paint where
  | black : Paint
  | grey : Paint
deriving DecidableEq, Repr

/-- A font: the typeface style it was built from (`arial` bold or normal)
and the point size (`24.0`, `36.0` or `12.0` in the source). -/
structure Font where
  bold : Bool
  size : Nat
deriving DecidableEq, Repr

/-- An integer rectangle, standing for the skia `Rect` returned by
`TextBlob::bounds` (left, top, right, bottom). -/
structure Rect where
  left : Int
  top : Int
  right : Int
  bottom : Int
deriving DecidableEq, Repr

/-- Width of a rectangle, the embedding of `Rect::width()` followed by the
`as i32` truncation done at every use site. -/
def Rect.width (r : Rect) : Int := r.right - r.left

/-- The embedding of `Rect::with_offset((dx, dy))`. -/
def Rect.withOffset (r : Rect) (dx dy : Int) : Rect :=
  ⟨r.left + dx, r.top + dy, r.right + dx, r.bottom + dy⟩

/-- A shaped text blob: the text and font it was built from plus its
measured bounds. -/
structure Blob where
  text : String
  font : Font
  bounds : Rect
deriving DecidableEq, Repr

/-- Drawing commands issued against a canvas, in order. -/
inductive DrawCmd where
  | clear : DrawCmd
  | line : Int → Int → Int → Int → Paint → DrawCmd
  | oval : Rect → Paint → DrawCmd
  | text : Blob → Int → Int → Paint → DrawCmd
deriving DecidableEq, Repr

/-- Structured warnings emitted through `tracing::warn!`. -/
inductive Warning where
  | missingAgency : String → Warning
  | missingDirection : String → String → Warning
deriving DecidableEq, Repr

/-- The coordinate transform installed on the final canvas before the blit:
either the identity, or the Kindle rotation (translate by
`(originalHeight, 0)` then rotate 90 degrees about the origin). -/
inductive Transform where
  | id : Transform
  | rotateKindle : Int → Transform
deriving DecidableEq, Repr

/-- Pointwise action of a transform (skia y-down coordinates; a positive
rotation is clockwise, so rotating 90 degrees sends `(x, y)` to `(-y, x)`). -/
def Transform.apply : Transform → Int × Int → Int × Int
  | Transform.id, p => p
  | Transform.rotateKindle h, p => (h - p.2, p.1)

/-- Rotation by 90 degrees about the origin in y-down coordinates. -/
def rot90 (p : Int × Int) : Int × Int := (-p.2, p.1)

/-- Translation by `(dx, dy)`. -/
def translatePt (dx dy : Int) (p : Int × Int) : Int × Int := (p.1 + dx, p.2 + dy)

/-- The buffer handed to PNG encoding: its pixel dimensions, the transform
under which the drawn content was blitted into it, and the content. -/
structure FinalImage where
  width : Int
  height : Int
  transform : Transform
  content : List DrawCmd
deriving DecidableEq, Repr

/-- The abstract skia library: glyph measurement (`none` when
`TextBlob::new` fails), bitmap `set_info` success per requested dimensions,
`Canvas::from_bitmap` success, `Typeface::new("arial", style)` success per
style (the argument is whether the style is bold), and PNG encoding. -/
structure SkiaEnv where
  measure : Font → String → Option Rect
  setInfoOk : Int → Int → Bool
  fromBitmapOk : Bool
  typefaceOk : Bool → Bool
  encode : FinalImage → Option (List Nat)

/-- The embedding of `TextBlob::new(text, font)`, failing exactly when the
environment has no measurement for the pair. -/
def mkTextBlob (env : SkiaEnv) (font : Font) (s : String) : Except String Blob :=
  match env.measure font s with
  | some r => Except.ok { text := s, font := font, bounds := r }
  | none => Except.error "failed to construct skia text blob"

/-- RenderTarget from `render.rs`. -/
inductive RenderTarget where
  | Kindle : RenderTarget
  | Other : RenderTarget
deriving DecidableEq, Repr

/-- The time string built for one line: each upcoming arrival's minutes
joined with a comma-space separator (itertools `join`), then `" min"`
appended (the `format!` call). -/
def time_text_of (upcoming : List Upcoming) : String :=
  String.intercalate ", " (upcoming.map (fun t => toString t.minutes)) ++ " min"

/-- The body of the `for (idx, (line, upcoming))` loop of `draw_data`,
one recursive step per dataset line.  `lines_len` is the length captured
before the loop; `idx` is the enumeration counter.  Returns the commands
issued and the final cursor.  The `idx < lines_len - 1` test uses natural
subtraction; it is only reached with `lines_len ≥ 1` (the loop body runs
only on a nonempty list), where it agrees with the Rust `usize` test. -/
def draw_lines (env : SkiaEnv) (font : Font) (x1 x2 : Int) (lines_len : Nat)
    (idx : Nat) (lines : List (Line × List Upcoming)) (y : Int) :
    Except String (List DrawCmd × Int) :=
  match lines with
  | [] => Except.ok ([], y)
  | (line, upcoming) :: rest => do
    let x := x1 + 20
    let line_name_blob ← mkTextBlob env font line.line
    let line_name_bounds := line_name_blob.bounds
    let line_name_oval := line_name_bounds.withOffset x y
    let destination_blob ← mkTextBlob env font line.destination
    let time_text := time_text_of upcoming
    let time_blob ← mkTextBlob env font time_text
    let tx := x2 - time_blob.bounds.width
    let here : List DrawCmd :=
      [DrawCmd.oval line_name_oval Paint.grey,
       DrawCmd.text line_name_blob x y Paint.black,
       DrawCmd.text destination_blob (x + line_name_bounds.width) y Paint.black,
       DrawCmd.text time_blob tx y Paint.black]
    let (sep, yNext) :=
      if idx < lines_len - 1 then
        ([DrawCmd.line (x1 + 40) (y + 15) (x2 - 40) (y + 15) Paint.grey], y + 40)
      else
        ([], y + 15)
    let (restCmds, yEnd) ← draw_lines env font x1 x2 lines_len (idx + 1) rest yNext
    Except.ok (here ++ sep ++ restCmds, yEnd)

/-- The `draw_data` closure of `stops_png`: resolves one section against
the dataset (warn and skip when the agency or direction is missing), draws
the right-panel divider when `x1 > 0`, draws every line, then the
section-end separator, advancing the cursor by 28. -/
def draw_data (env : SkiaEnv) (stop_data : StopData) (config_file : ConfigFile)
    (font : Font) (sec : SectionConfig) (x1 x2 : Int) (y : Int) :
    Except String (List DrawCmd × List Warning × Int) :=
  match lookupMap stop_data sec.agency with
  | none => Except.ok ([], [Warning.missingAgency sec.agency], y)
  | some agency =>
    match lookupMap agency sec.direction with
    | none =>
      Except.ok ([], [Warning.missingDirection sec.agency sec.direction], y)
    | some lines =>
      let divider : List DrawCmd :=
        if x1 > 0 then
          [DrawCmd.line x1 0 x1 config_file.layout.height Paint.black]
        else []
      let lines_len := lines.length
      (draw_lines env font x1 x2 lines_len 0 lines y).map fun (cmds, yEnd) =>
        (divider ++ cmds ++ [DrawCmd.line x1 yEnd x2 yEnd Paint.black], [], yEnd + 28)

/-- One panel's pass of the `stops_png` closure: fold `draw_data` over the
panel's sections, threading the mutable cursor. -/
def draw_panel (env : SkiaEnv) (stop_data : StopData) (config_file : ConfigFile)
    (font : Font) (sections : List SectionConfig) (x1 x2 : Int) (y : Int) :
    Except String (List DrawCmd × List Warning × Int) :=
  match sections with
  | [] => Except.ok ([], [], y)
  | s :: rest => do
    let (c1, w1, y1) ← draw_data env stop_data config_file font s x1 x2 y
    let (c2, w2, y2) ← draw_panel env stop_data config_file font rest x1 x2 y1
    Except.ok (c1 ++ c2, w1 ++ w2, y2)

/-- The image-producing part of `render_ctx`: check the bitmap and canvas
allocations, clear to white, run the caller's drawing closure (given here
as its outcome: the commands drawn and warnings logged, or the propagated
error), and, for the Kindle target, allocate the swapped-dimension bitmap
and blit under the rotation transform. -/
def render_ctx_image (env : SkiaEnv) (render_target : RenderTarget)
    (config_file : ConfigFile)
    (closure : Except String (List DrawCmd × List Warning)) :
    Except String (FinalImage × List Warning) :=
  if ¬ env.setInfoOk config_file.layout.width config_file.layout.height then
    Except.error "failed to initialize skia bitmap"
  else if ¬ env.fromBitmapOk then
    Except.error "failed to construct skia canvas"
  else
    match closure with
    | Except.error e => Except.error e
    | Except.ok (cmds, ws) =>
      let image : FinalImage :=
        { width := config_file.layout.width,
          height := config_file.layout.height,
          transform := Transform.id, content := DrawCmd.clear :: cmds }
      if render_target = RenderTarget.Kindle then
        if ¬ env.setInfoOk config_file.layout.height config_file.layout.width then
          Except.error "failed to initialize skia bitmap"
        else if ¬ env.fromBitmapOk then
          Except.error "failed to construct skia canvas"
        else
          Except.ok
            ({ width := config_file.layout.height,
               height := config_file.layout.width,
               transform := Transform.rotateKindle config_file.layout.height,
               content := image.content }, ws)
      else
        Except.ok (image, ws)

/-- PNG encoding of the final image, the tail of `render_ctx`. -/
def encode_step (env : SkiaEnv)
    (r : Except String (FinalImage × List Warning)) :
    Except String (List Nat × List Warning) :=
  match r with
  | Except.error e => Except.error e
  | Except.ok (fi, ws) =>
    match env.encode fi with
    | some bytes => Except.ok (bytes, ws)
    | none => Except.error "failed to encode skia image"

/-- The embedding of `render_ctx`: produce the (possibly rotated) image and
encode it.  The second component of a successful result is the warnings
logged by the closure (the tracing side channel). -/
def render_ctx (env : SkiaEnv) (render_target : RenderTarget)
    (config_file : ConfigFile)
    (closure : Except String (List DrawCmd × List Warning)) :
    Except String (List Nat × List Warning) :=
  encode_step env (render_ctx_image env render_target config_file closure)

/-- The embedding of `stops_png`: construct the bold typeface and 24pt
font, then render both panels (left on `[0, halfway]`, right on
`[halfway, width]`), each starting its own cursor at 38. -/
def stops_png (env : SkiaEnv) (render_target : RenderTarget)
    (stop_data : StopData) (config_file : ConfigFile) :
    Except String (List Nat × List Warning) :=
  if ¬ env.typefaceOk true then
    Except.error "failed to construct skia typeface"
  else
    let font : Font := { bold := true, size := 24 }
    let halfway := config_file.layout.width / 2
    render_ctx env render_target config_file
      (match draw_panel env stop_data config_file font
          config_file.layout.left.sections 0 halfway 38 with
       | Except.error e => Except.error e
       | Except.ok (lc, lw, _) =>
         match draw_panel env stop_data config_file font
             config_file.layout.right.sections halfway
             config_file.layout.width 38 with
         | Except.error e => Except.error e
         | Except.ok (rc, rw, _) => Except.ok (lc ++ rc, lw ++ rw))

/-- The error cause chain loop of `error_png`: one small-font message per
cause at `(100, y)`, `y` advancing by 20. -/
def draw_error_chain (env : SkiaEnv) (small_font : Font) (chain : List String)
    (y : Int) : Except String (List DrawCmd) :=
  match chain with
  | [] => Except.ok []
  | e :: rest => do
    let error_blob ← mkTextBlob env small_font e
    let restCmds ← draw_error_chain env small_font rest (y + 20)
    Except.ok (DrawCmd.text error_blob 100 y Paint.black :: restCmds)

/-- The image stage of `error_png`: normal-style typeface, 36pt headline
font and 12pt body font; the `ERROR` blob is built before `render_ctx`
runs; the closure draws the headline at `(100, 200)` and the cause chain
from 250. -/
def error_png_image (env : SkiaEnv) (render_target : RenderTarget)
    (config_file : ConfigFile) (error : List String) :
    Except String (FinalImage × List Warning) :=
  if ¬ env.typefaceOk false then
    Except.error "failed to construct skia typeface"
  else
    let big_font : Font := { bold := false, size := 36 }
    let small_font : Font := { bold := false, size := 12 }
    match mkTextBlob env big_font "ERROR" with
    | Except.error e => Except.error e
    | Except.ok failure_blob =>
      render_ctx_image env render_target config_file
        (match draw_error_chain env small_font error 250 with
         | Except.error e => Except.error e
         | Except.ok chainCmds =>
           Except.ok (DrawCmd.text failure_blob 100 200 Paint.black :: chainCmds, []))

/-- The embedding of `error_png`: the image stage above followed by PNG
encoding (its `render_ctx` call, split the same way as `render_ctx` is). -/
def error_png (env : SkiaEnv) (render_target : RenderTarget)
    (config_file : ConfigFile) (error : List String) :
    Except String (List Nat) :=
  (encode_step env (error_png_image env render_target config_file error)).map
    Prod.fst

/-- Generalization of `stops_png` exposing the two panels' initial cursor
values as parameters, used only to state where `stops_png` initializes
them (the two `let mut y = 38;` lines of the source). -/
def stops_png_cursors (env : SkiaEnv) (render_target : RenderTarget)
    (stop_data : StopData) (config_file : ConfigFile) (yl yr : Int) :
    Except String (List Nat × List Warning) :=
  if ¬ env.typefaceOk true then
    Except.error "failed to construct skia typeface"
  else
    let font : Font := { bold := true, size := 24 }
    let halfway := config_file.layout.width / 2
    render_ctx env render_target config_file
      (match draw_panel env stop_data config_file font
          config_file.layout.left.sections 0 halfway yl with
       | Except.error e => Except.error e
       | Except.ok (lc, lw, _) =>
         match draw_panel env stop_data config_file font
             config_file.layout.right.sections halfway
             config_file.layout.width yr with
         | Except.error e => Except.error e
         | Except.ok (rc, rw, _) => Except.ok (lc ++ rc, lw ++ rw))

/-- Replacement of a configuration's left panel sections, keeping
everything else; used to state that the rest of a render does not depend
on them. -/
def withLeftSections (cfg : ConfigFile) (L : List SectionConfig) : ConfigFile :=
  ⟨⟨cfg.layout.width, cfg.layout.height, ⟨L⟩, cfg.layout.right⟩⟩

/-- Replacement of a configuration's right panel sections, keeping
everything else. -/
def withRightSections (cfg : ConfigFile) (R : List SectionConfig) : ConfigFile :=
  ⟨⟨cfg.layout.width, cfg.layout.height, cfg.layout.left, ⟨R⟩⟩⟩

/-- A concrete skia environment for witnesses: every construction succeeds,
each string measures as a thin box of its character count, and encoding
yields the image dimensions followed by the command count. -/
def env0 : SkiaEnv :=
  { measure := fun _ s => some ⟨0, -10, (s.length : Int), 2⟩,
    setInfoOk := fun _ _ => true,
    fromBitmapOk := true,
    typefaceOk := fun _ => true,
    encode := fun fi => some [fi.width.toNat, fi.height.toNat, fi.content.length] }

/-- A skia environment whose bold typeface construction fails. -/
def envNoBold : SkiaEnv := { env0 with typefaceOk := fun b => !b }

/-- A skia environment where every text blob construction fails. -/
def envNoBlob : SkiaEnv := { env0 with measure := fun _ _ => none }

/-- A skia environment where bitmap `set_info` always fails. -/
def envNoBitmap : SkiaEnv := { env0 with setInfoOk := fun _ _ => false }

/-- A skia environment where PNG encoding always fails. -/
def envNoEncode : SkiaEnv := { env0 with encode := fun _ => none }

/-- Example lines and dataset used by witnesses. -/
def line0 : Line := ⟨"RD", "Richmond"⟩

def line1 : Line := ⟨"YL", "Millbrae"⟩

def lines0 : List (Line × List Upcoming) := [(line0, [⟨3⟩, ⟨11⟩]), (line1, [⟨5⟩])]

def sd0 : StopData := [("bart", [("north", lines0)])]

def sec0 : SectionConfig := ⟨"bart", "north"⟩

def secNoAgency : SectionConfig := ⟨"muni", "south"⟩

def secNoDirection : SectionConfig := ⟨"bart", "south"⟩

def cfg0 : ConfigFile := ⟨⟨600, 800, ⟨[sec0]⟩, ⟨[secNoAgency]⟩⟩⟩

def font24 : Font := ⟨true, 24⟩

def font12 : Font := ⟨false, 12⟩

def font36 : Font := ⟨false, 36⟩

/-- Command-list component of a successful `draw_data` run. -/
def okCmds (r : Except String (List DrawCmd × List Warning × Int)) :
    List DrawCmd :=
  match r with
  | Except.ok (c, _, _) => c
  | Except.error _ => []

/-- Warning component of a successful `draw_data` run. -/
def okWs (r : Except String (List DrawCmd × List Warning × Int)) :
    List Warning :=
  match r with
  | Except.ok (_, w, _) => w
  | Except.error _ => []

/-- The `draw_data` run backing several witnesses: the two-line section of
`sd0` rendered as a left panel section from cursor 38. -/
def c1_run : Except String (List DrawCmd × List Warning × Int) :=
  draw_data env0 sd0 cfg0 font24 sec0 0 300 38

lemma draw_lines_nil (env : SkiaEnv) (font : Font) (x1 x2 : Int)
    (lines_len idx : Nat) (y : Int) :
    draw_lines env font x1 x2 lines_len idx [] y = Except.ok ([], y) := rfl

/-- Cursor arithmetic of the per-line loop: a successful run over a
nonempty suffix that ends exactly at `lines_len` advances the cursor by 40
per non-last line and 15 for the last line. -/
lemma draw_lines_cursor (env : SkiaEnv) (font : Font) (x1 x2 : Int)
    (lines_len : Nat) :
    ∀ (lines : List (Line × List Upcoming)) (idx : Nat) (y : Int)
      (cmds : List DrawCmd) (y1 : Int),
      idx + lines.length = lines_len →
      lines ≠ [] →
      draw_lines env font x1 x2 lines_len idx lines y = Except.ok (cmds, y1) →
      y1 = y + 40 * ((lines.length : Int) - 1) + 15 := by
  intro lines
  induction lines with
  | nil => intro idx y cmds y1 _ hne _; exact absurd rfl hne
  | cons hd rest ih =>
    intro idx y cmds y1 hlen _ hrun
    obtain ⟨line, upcoming⟩ := hd
    rw [draw_lines] at hrun
    cases h1 : env.measure font line.line with
    | none => simp [mkTextBlob, h1, Bind.bind, Except.bind] at hrun
    | some r1 =>
    cases h2 : env.measure font line.destination with
    | none => simp [mkTextBlob, h1, h2, Bind.bind, Except.bind] at hrun
    | some r2 =>
    cases h3 : env.measure font (time_text_of upcoming) with
    | none => simp [mkTextBlob, h1, h2, h3, Bind.bind, Except.bind] at hrun
    | some r3 =>
    simp only [mkTextBlob, h1, h2, h3, Bind.bind, Except.bind] at hrun
    rcases rest with _ | ⟨hd2, rest2⟩
    · have hidx : ¬ idx < lines_len - 1 := by
        simp only [List.length_cons, List.length_nil] at hlen; omega
      simp only [if_neg hidx, draw_lines_nil, Except.ok.injEq, Prod.mk.injEq] at hrun
      obtain ⟨-, h5⟩ := hrun
      simp only [List.length_cons, List.length_nil]
      push_cast
      omega
    · have hidx : idx < lines_len - 1 := by
        simp only [List.length_cons] at hlen; omega
      simp only [if_pos hidx] at hrun
      cases h4 : draw_lines env font x1 x2 lines_len (idx + 1) (hd2 :: rest2) (y + 40) with
      | error e => rw [h4] at hrun; exact absurd hrun (by simp)
      | ok p =>
        obtain ⟨rc, ye⟩ := p
        rw [h4] at hrun
        simp only [Except.ok.injEq, Prod.mk.injEq] at hrun
        obtain ⟨-, h5⟩ := hrun
        have hrec := ih (idx + 1) (y + 40) rc ye
          (by simp only [List.length_cons] at hlen ⊢; omega) (by simp) h4
        simp only [List.length_cons] at hrec ⊢
        push_cast at hrec ⊢
        omega

/-- Unfolding of `draw_data` when the section resolves in the dataset. -/
lemma draw_data_found (env : SkiaEnv) (sd : StopData) (cfg : ConfigFile)
    (font : Font) (sec : SectionConfig) (x1 x2 y : Int) (am : DirectionMap)
    (lines : List (Line × List Upcoming))
    (hag : lookupMap sd sec.agency = some am)
    (hdir : lookupMap am sec.direction = some lines) :
    draw_data env sd cfg font sec x1 x2 y =
      (draw_lines env font x1 x2 lines.length 0 lines y).map
        (fun p =>
          ((if x1 > 0 then
              [DrawCmd.line x1 0 x1 cfg.layout.height Paint.black]
            else []) ++ p.1 ++ [DrawCmd.line x1 p.2 x2 p.2 Paint.black],
           [], p.2 + 28)) := by
  simp only [draw_data, hag, hdir]

/-- Unfolding of `draw_data` when the agency is absent from the dataset. -/
lemma draw_data_missing_agency (env : SkiaEnv) (sd : StopData)
    (cfg : ConfigFile) (font : Font) (sec : SectionConfig) (x1 x2 y : Int)
    (hag : lookupMap sd sec.agency = none) :
    draw_data env sd cfg font sec x1 x2 y =
      Except.ok ([], [Warning.missingAgency sec.agency], y) := by
  simp only [draw_data, hag]

/-- Unfolding of `draw_data` when the agency exists but the direction is
absent from its map. -/
lemma draw_data_missing_direction (env : SkiaEnv) (sd : StopData)
    (cfg : ConfigFile) (font : Font) (sec : SectionConfig) (x1 x2 y : Int)
    (am : DirectionMap)
    (hag : lookupMap sd sec.agency = some am)
    (hdir : lookupMap am sec.direction = none) :
    draw_data env sd cfg font sec x1 x2 y =
      Except.ok ([], [Warning.missingDirection sec.agency sec.direction], y) := by
  simp only [draw_data, hag, hdir]

/-- C1: for every section whose (agency, direction) resolves in StopData to
a sequence of n ≥ 1 line pairs, `draw_data` (the per-section pass of
`stops_png`) advances the panel cursor by 40 for each non-last line, by 15
for the last line, and by an additional 28 after the section-end
separator: the next section starts at `y0 + 40 * (n - 1) + 15 + 28`. -/
theorem section_cursor_rhythm (env : SkiaEnv) (sd : StopData)
    (cfg : ConfigFile) (font : Font) (sec : SectionConfig) (x1 x2 y0 : Int)
    (cmds : List DrawCmd) (ws : List Warning) (y1 : Int) (am : DirectionMap)
    (lines : List (Line × List Upcoming))
    (hag : lookupMap sd sec.agency = some am)
    (hdir : lookupMap am sec.direction = some lines)
    (hlen : 1 ≤ lines.length)
    (hrun : draw_data env sd cfg font sec x1 x2 y0 = Except.ok (cmds, ws, y1)) :
    y1 = y0 + (40 * ((lines.length : Int) - 1) + 15) + 28 := by
  rw [draw_data_found env sd cfg font sec x1 x2 y0 am lines hag hdir] at hrun
  cases h4 : draw_lines env font x1 x2 lines.length 0 lines y0 with
  | error e => rw [h4] at hrun; exact absurd hrun (by simp [Except.map])
  | ok p =>
    obtain ⟨c, yEnd⟩ := p
    rw [h4] at hrun
    simp only [Except.map, Except.ok.injEq, Prod.mk.injEq] at hrun
    have hy := draw_lines_cursor env font x1 x2 lines.length lines 0 y0 c yEnd
      (by omega) (by intro h; rw [h] at hlen; exact absurd hlen (by simp)) h4
    omega

/-- Witness for C1: the two-line section of `sd0`, drawn from cursor 38,
leaves the next section's start at 38 + 40 + 15 + 28 = 121. -/
theorem section_cursor_rhythm_witness :
    (121 : Int) = 38 + (40 * ((lines0.length : Int) - 1) + 15) + 28 :=
  section_cursor_rhythm env0 sd0 cfg0 font24 sec0 0 300 38
    (okCmds c1_run) (okWs c1_run) 121 [("north", lines0)] lines0
    rfl rfl (by decide) rfl

/-- C10: a section that resolves to an empty line list runs the per-line
loop zero times (the `lines_len - 1` test sits inside the loop body, so it
is never evaluated at zero and no unsigned underflow can occur), still
draws its full-width section-end separator at the current cursor, and
advances the cursor by exactly 28 — while a missing section advances it
by 0. -/
theorem empty_section_separator_advance (env : SkiaEnv) (sd : StopData)
    (cfg : ConfigFile) (font : Font) (sec sec2 : SectionConfig) (x1 x2 y : Int)
    (am : DirectionMap)
    (hag : lookupMap sd sec.agency = some am)
    (hdir : lookupMap am sec.direction = some []) :
    draw_data env sd cfg font sec x1 x2 y =
      Except.ok ((if x1 > 0 then
          [DrawCmd.line x1 0 x1 cfg.layout.height Paint.black]
        else []) ++ [DrawCmd.line x1 y x2 y Paint.black], [], y + 28) ∧
    (lookupMap sd sec2.agency = none →
      draw_data env sd cfg font sec2 x1 x2 y =
        Except.ok ([], [Warning.missingAgency sec2.agency], y)) := by
  constructor
  · rw [draw_data_found env sd cfg font sec x1 x2 y am [] hag hdir]
    simp [draw_lines_nil, Except.map]
  · intro h; exact draw_data_missing_agency env sd cfg font sec2 x1 x2 y h

/-- Witness for C10: a present-but-empty section in the right panel draws
its divider and a separator at cursor 38 and advances to 66; the missing
agency section advances nothing. -/
theorem empty_section_separator_advance_witness :
    draw_data env0 [("bart", [("north", [])])] cfg0 font24 sec0 100 300 38 =
      Except.ok ((if (100 : Int) > 0 then
          [DrawCmd.line 100 0 100 cfg0.layout.height Paint.black]
        else []) ++ [DrawCmd.line 100 38 300 38 Paint.black], [], 38 + 28) ∧
    draw_data env0 [("bart", [("north", [])])] cfg0 font24 secNoAgency 100 300 38 =
      Except.ok ([], [Warning.missingAgency secNoAgency.agency], 38) :=
  ⟨(empty_section_separator_advance env0 [("bart", [("north", [])])] cfg0
      font24 sec0 secNoAgency 100 300 38 [("north", [])] rfl rfl).1,
   (empty_section_separator_advance env0 [("bart", [("north", [])])] cfg0
      font24 sec0 secNoAgency 100 300 38 [("north", [])] rfl rfl).2 rfl⟩

/-- C9: a line whose upcoming list is empty still renders a time string,
namely exactly " min", right-aligned at the panel's right boundary; the
empty list is not treated as missing data and the line is drawn in full. -/
theorem empty_upcoming_renders_min (env : SkiaEnv) (sd : StopData)
    (cfg : ConfigFile) (font : Font) (sec : SectionConfig) (x1 x2 y : Int)
    (am : DirectionMap) (l : Line) (rl rd rt : Rect)
    (hag : lookupMap sd sec.agency = some am)
    (hdir : lookupMap am sec.direction = some [(l, [])])
    (hml : env.measure font l.line = some rl)
    (hmd : env.measure font l.destination = some rd)
    (hmt : env.measure font " min" = some rt) :
    time_text_of [] = " min" ∧
    draw_data env sd cfg font sec x1 x2 y =
      Except.ok ((if x1 > 0 then
          [DrawCmd.line x1 0 x1 cfg.layout.height Paint.black]
        else []) ++
        [DrawCmd.oval (rl.withOffset (x1 + 20) y) Paint.grey,
         DrawCmd.text ⟨l.line, font, rl⟩ (x1 + 20) y Paint.black,
         DrawCmd.text ⟨l.destination, font, rd⟩ (x1 + 20 + rl.width) y Paint.black,
         DrawCmd.text ⟨" min", font, rt⟩ (x2 - rt.width) y Paint.black,
         DrawCmd.line x1 (y + 15) x2 (y + 15) Paint.black], [], y + 15 + 28) := by
  refine ⟨rfl, ?_⟩
  rw [draw_data_found env sd cfg font sec x1 x2 y am [(l, [])] hag hdir]
  have hmt2 : env.measure font (time_text_of []) = some rt := hmt
  simp only [draw_lines, mkTextBlob, hml, hmd, hmt2, Bind.bind, Except.bind,
    List.length_cons, List.length_nil, draw_lines_nil, Except.map]
  simp [List.append_assoc]
  rfl

/-- Witness for C9: a zero-upcoming line in a left panel section draws the
string " min" right-aligned at 300 and is not skipped. -/
theorem empty_upcoming_renders_min_witness :
    time_text_of [] = " min" ∧
    draw_data env0 [("bart", [("north", [(line0, [])])])] cfg0 font24 sec0
        0 300 38 =
      Except.ok ((if (0 : Int) > 0 then
          [DrawCmd.line 0 0 0 cfg0.layout.height Paint.black]
        else []) ++
        [DrawCmd.oval (Rect.withOffset ⟨0, -10, 2, 2⟩ (0 + 20) 38) Paint.grey,
         DrawCmd.text ⟨line0.line, font24, ⟨0, -10, 2, 2⟩⟩ (0 + 20) 38 Paint.black,
         DrawCmd.text ⟨line0.destination, font24, ⟨0, -10, 8, 2⟩⟩
           (0 + 20 + Rect.width ⟨0, -10, 2, 2⟩) 38 Paint.black,
         DrawCmd.text ⟨" min", font24, ⟨0, -10, 4, 2⟩⟩
           (300 - Rect.width ⟨0, -10, 4, 2⟩) 38 Paint.black,
         DrawCmd.line 0 (38 + 15) 300 (38 + 15) Paint.black], [], 38 + 15 + 28) :=
  empty_upcoming_renders_min env0 [("bart", [("north", [(line0, [])])])] cfg0
    font24 sec0 0 300 38 [("north", [(line0, [])])] line0
    ⟨0, -10, 2, 2⟩ ⟨0, -10, 8, 2⟩ ⟨0, -10, 4, 2⟩ rfl rfl rfl rfl rfl

/-- Time-string membership in the per-line loop output: every line drawn by
a successful `draw_lines` run has a text command whose blob is the joined
minutes string, placed so its right edge sits at `x2`. -/
lemma draw_lines_time_text (env : SkiaEnv) (font : Font) (x1 x2 : Int)
    (lines_len : Nat) :
    ∀ (lines : List (Line × List Upcoming)) (idx : Nat) (y : Int)
      (cmds : List DrawCmd) (y1 : Int),
      draw_lines env font x1 x2 lines_len idx lines y = Except.ok (cmds, y1) →
      ∀ l u, (l, u) ∈ lines →
        ∃ r ypos, env.measure font (time_text_of u) = some r ∧
          DrawCmd.text ⟨time_text_of u, font, r⟩ (x2 - r.width) ypos Paint.black ∈ cmds := by
  intro lines
  induction lines with
  | nil => intro idx y cmds y1 _ l u hm; exact absurd hm (by simp)
  | cons hd rest ih =>
    intro idx y cmds y1 hrun l u hm
    obtain ⟨line, upcoming⟩ := hd
    rw [draw_lines] at hrun
    cases h1 : env.measure font line.line with
    | none => simp [mkTextBlob, h1, Bind.bind, Except.bind] at hrun
    | some r1 =>
    cases h2 : env.measure font line.destination with
    | none => simp [mkTextBlob, h1, h2, Bind.bind, Except.bind] at hrun
    | some r2 =>
    cases h3 : env.measure font (time_text_of upcoming) with
    | none => simp [mkTextBlob, h1, h2, h3, Bind.bind, Except.bind] at hrun
    | some r3 =>
    simp only [mkTextBlob, h1, h2, h3, Bind.bind, Except.bind] at hrun
    cases h4 : draw_lines env font x1 x2 lines_len (idx + 1) rest
        (if idx < lines_len - 1 then y + 40 else y + 15) with
    | error e =>
      rw [show (if idx < lines_len - 1 then
            ([DrawCmd.line (x1 + 40) (y + 15) (x2 - 40) (y + 15) Paint.grey], y + 40)
          else ([], y + 15)) =
          ((if idx < lines_len - 1 then
            [DrawCmd.line (x1 + 40) (y + 15) (x2 - 40) (y + 15) Paint.grey] else []),
           (if idx < lines_len - 1 then y + 40 else y + 15)) from by split <;> rfl] at hrun
      rw [h4] at hrun
      exact absurd hrun (by simp)
    | ok p =>
      obtain ⟨rc, ye⟩ := p
      rw [show (if idx < lines_len - 1 then
            ([DrawCmd.line (x1 + 40) (y + 15) (x2 - 40) (y + 15) Paint.grey], y + 40)
          else ([], y + 15)) =
          ((if idx < lines_len - 1 then
            [DrawCmd.line (x1 + 40) (y + 15) (x2 - 40) (y + 15) Paint.grey] else []),
           (if idx < lines_len - 1 then y + 40 else y + 15)) from by split <;> rfl] at hrun
      rw [h4] at hrun
      simp only [Except.ok.injEq, Prod.mk.injEq] at hrun
      obtain ⟨hc, -⟩ := hrun
      rcases List.mem_cons.mp hm with heq | hmrest
      · obtain ⟨hl, hu⟩ := Prod.mk.injEq .. ▸ heq
        refine ⟨r3, y, ?_, ?_⟩
        · rw [← hu] at h3; exact h3
        · rw [← hc]
          simp [← hu]
      · obtain ⟨r, ypos, hmeas, hmem⟩ := ih (idx + 1) _ rc ye h4 l u hmrest
        exact ⟨r, ypos, hmeas, by rw [← hc]; simp [hmem]⟩

/-- C3: every line drawn by the per-line loop renders its time string as
the minutes joined by ", " with " min" appended, in dataset order,
right-aligned so its right edge sits at `x2`; minutes [3, 11] produce
exactly "3, 11 min". -/
theorem time_string_join (env : SkiaEnv) (font : Font) (x1 x2 : Int)
    (lines_len idx : Nat) (lines : List (Line × List Upcoming)) (y : Int)
    (cmds : List DrawCmd) (y1 : Int)
    (hrun : draw_lines env font x1 x2 lines_len idx lines y = Except.ok (cmds, y1)) :
    (∀ l u, (l, u) ∈ lines →
      ∃ r ypos, env.measure font (time_text_of u) = some r ∧
        DrawCmd.text ⟨time_text_of u, font, r⟩ (x2 - r.width) ypos Paint.black ∈ cmds) ∧
    time_text_of [⟨3⟩, ⟨11⟩] = "3, 11 min" :=
  ⟨fun l u hm =>
     draw_lines_time_text env font x1 x2 lines_len lines idx y cmds y1 hrun l u hm,
   rfl⟩

/-- First component of a successful `draw_lines` run. -/
def okLineCmds (r : Except String (List DrawCmd × Int)) : List DrawCmd :=
  match r with
  | Except.ok (c, _) => c
  | Except.error _ => []

/-- The `draw_lines` run backing the C3 witness: the two lines of `lines0`
drawn from cursor 38. -/
def c3_run : Except String (List DrawCmd × Int) :=
  draw_lines env0 font24 0 300 2 0 lines0 38

/-- Witness for C3: the loop over `lines0` succeeds and satisfies the
time-string property, and the concrete join example holds. -/
theorem time_string_join_witness :
    (∀ l u, (l, u) ∈ lines0 →
      ∃ r ypos, env0.measure font24 (time_text_of u) = some r ∧
        DrawCmd.text ⟨time_text_of u, font24, r⟩ (300 - r.width) ypos Paint.black ∈
          okLineCmds c3_run) ∧
    time_text_of [⟨3⟩, ⟨11⟩] = "3, 11 min" :=
  time_string_join env0 font24 0 300 2 0 lines0 38 (okLineCmds c3_run) 93 rfl


/-- C4: for `RenderTarget::Kindle` the final buffer has width and height
swapped (output width is the input height and vice versa), carries the
transform translate-by-(originalHeight, 0)-then-rotate-90 (whose pointwise
action is proved equal to that composition), and holds the blit of the
first buffer's content; for `RenderTarget::Other` the original
width-by-height buffer is used unchanged. -/
theorem kindle_rotation_dims (env : SkiaEnv) (cfg : ConfigFile)
    (closure : Except String (List DrawCmd × List Warning))
    (fi : FinalImage) (ws : List Warning) :
    (render_ctx_image env RenderTarget.Kindle cfg closure = Except.ok (fi, ws) →
      fi.width = cfg.layout.height ∧ fi.height = cfg.layout.width ∧
      fi.transform = Transform.rotateKindle cfg.layout.height ∧
      ∀ cmds ws0, closure = Except.ok (cmds, ws0) →
        fi.content = DrawCmd.clear :: cmds) ∧
    (render_ctx_image env RenderTarget.Other cfg closure = Except.ok (fi, ws) →
      fi.width = cfg.layout.width ∧ fi.height = cfg.layout.height ∧
      fi.transform = Transform.id ∧
      ∀ cmds ws0, closure = Except.ok (cmds, ws0) →
        fi.content = DrawCmd.clear :: cmds) ∧
    (∀ h p, Transform.apply (Transform.rotateKindle h) p =
      translatePt h 0 (rot90 p)) := by
  refine ⟨?_, ?_, ?_⟩
  · intro h
    rw [render_ctx_image.eq_def] at h
    split at h
    · exact absurd h (by simp)
    · split at h
      · exact absurd h (by simp)
      · split at h
        · exact absurd h (by simp)
        · rename_i cl cmds0 ws0
          simp only [reduceIte] at h
          split at h
          · exact absurd h (by simp)
          · simp only [Except.ok.injEq, Prod.mk.injEq] at h
            obtain ⟨hfi, -⟩ := h
            subst hfi
            refine ⟨rfl, rfl, rfl, ?_⟩
            intro cmds2 ws2 hcl
            simp only [Except.ok.injEq, Prod.mk.injEq] at hcl
            rw [← hcl.1]
  · intro h
    rw [render_ctx_image.eq_def] at h
    split at h
    · exact absurd h (by simp)
    · split at h
      · exact absurd h (by simp)
      · split at h
        · exact absurd h (by simp)
        · rename_i cl cmds0 ws0
          simp only [reduceIte, reduceCtorEq] at h
          simp only [Except.ok.injEq, Prod.mk.injEq] at h
          obtain ⟨hfi, -⟩ := h
          subst hfi
          refine ⟨rfl, rfl, rfl, ?_⟩
          intro cmds2 ws2 hcl
          simp only [Except.ok.injEq, Prod.mk.injEq] at hcl
          rw [← hcl.1]
  · intro h p
    simp only [Transform.apply, translatePt, rot90, Prod.mk.injEq]
    exact ⟨by omega, by omega⟩


/-- Witness for C4: rendering the empty closure on the 600x800 layout for
Kindle yields an 800x600 buffer with the rotation transform. -/
theorem kindle_rotation_dims_witness :
    (FinalImage.mk 800 600 (Transform.rotateKindle 800) [DrawCmd.clear]).width =
      cfg0.layout.height ∧
    (FinalImage.mk 800 600 (Transform.rotateKindle 800) [DrawCmd.clear]).height =
      cfg0.layout.width ∧
    (FinalImage.mk 800 600 (Transform.rotateKindle 800) [DrawCmd.clear]).transform =
      Transform.rotateKindle cfg0.layout.height ∧
    (FinalImage.mk 800 600 (Transform.rotateKindle 800) [DrawCmd.clear]).content =
      DrawCmd.clear :: ([] : List DrawCmd) := by
  have h := (kindle_rotation_dims env0 cfg0 (Except.ok ([], []))
    (FinalImage.mk 800 600 (Transform.rotateKindle 800) [DrawCmd.clear]) []).1 rfl
  exact ⟨h.1, h.2.1, h.2.2.1, h.2.2.2 [] [] rfl⟩

/-- C6: `stops_png` is deterministic: two calls with identical
(StopData, LayoutConfig, RenderTarget) inputs against the same skia
library state produce identical results (same success or failure, and on
success the same bytes and warnings). -/
theorem stops_png_deterministic (env : SkiaEnv) (rt1 rt2 : RenderTarget)
    (sd1 sd2 : StopData) (cfg1 cfg2 : ConfigFile)
    (hrt : rt1 = rt2) (hsd : sd1 = sd2) (hcfg : cfg1 = cfg2) :
    stops_png env rt1 sd1 cfg1 = stops_png env rt2 sd2 cfg2 := by
  rw [hrt, hsd, hcfg]

/-- Witness for C6 at a concrete render call. -/
theorem stops_png_deterministic_witness :
    stops_png env0 RenderTarget.Kindle sd0 cfg0 =
      stops_png env0 RenderTarget.Kindle sd0 cfg0 :=
  stops_png_deterministic env0 RenderTarget.Kindle RenderTarget.Kindle
    sd0 sd0 cfg0 cfg0 rfl rfl rfl

/-- C7: every structural failure is fatal to the current call with no
retry and no partial output: a closure error propagates out of
`render_ctx` unchanged; typeface failure aborts `stops_png` and
`error_png`; bitmap `set_info` and `Canvas::from_bitmap` failures abort
`render_ctx`; encoding failure aborts `render_ctx`; only the per-section
missing-data condition is a non-error, handled by skip-and-warn. -/
theorem render_failures_fatal (env : SkiaEnv) (rt : RenderTarget)
    (sd : StopData) (cfg : ConfigFile)
    (closure : Except String (List DrawCmd × List Warning)) (e : String) :
    (env.setInfoOk cfg.layout.width cfg.layout.height = true →
      env.fromBitmapOk = true →
      render_ctx env rt cfg (Except.error e) = Except.error e) ∧
    (env.typefaceOk true = false →
      stops_png env rt sd cfg = Except.error "failed to construct skia typeface") ∧
    (env.typefaceOk false = false → ∀ chain,
      error_png env rt cfg chain = Except.error "failed to construct skia typeface") ∧
    (env.setInfoOk cfg.layout.width cfg.layout.height = false →
      render_ctx env rt cfg closure = Except.error "failed to initialize skia bitmap") ∧
    (env.setInfoOk cfg.layout.width cfg.layout.height = true →
      env.fromBitmapOk = false →
      render_ctx env rt cfg closure = Except.error "failed to construct skia canvas") ∧
    (∀ fi ws, render_ctx_image env rt cfg closure = Except.ok (fi, ws) →
      env.encode fi = none →
      render_ctx env rt cfg closure = Except.error "failed to encode skia image") ∧
    (∀ font sec x1 x2 y, lookupMap sd sec.agency = none →
      draw_data env sd cfg font sec x1 x2 y =
        Except.ok ([], [Warning.missingAgency sec.agency], y)) := by
  refine ⟨?_, ?_, ?_, ?_, ?_, ?_, ?_⟩
  · intro c1 c2
    simp [render_ctx, render_ctx_image, c1, c2, encode_step]
  · intro h
    simp [stops_png, h]
  · intro h chain
    simp [error_png, error_png_image, h, encode_step, Except.map]
  · intro h
    simp [render_ctx, render_ctx_image, h, encode_step]
  · intro c1 c2
    simp [render_ctx, render_ctx_image, c1, c2, encode_step]
  · intro fi ws hok henc
    rw [render_ctx, encode_step.eq_def, hok]
    simp only [henc]
  · intro font sec x1 x2 y h
    exact draw_data_missing_agency env sd cfg font sec x1 x2 y h

/-- Witness for C7: concrete environments in which each failure aborts the
call with the corresponding error. -/
theorem render_failures_fatal_witness :
    stops_png envNoBold RenderTarget.Other sd0 cfg0 =
      Except.error "failed to construct skia typeface" ∧
    render_ctx envNoBitmap RenderTarget.Other cfg0 (Except.ok ([], [])) =
      Except.error "failed to initialize skia bitmap" ∧
    render_ctx env0 RenderTarget.Other cfg0 (Except.error "boom") =
      Except.error "boom" ∧
    render_ctx envNoEncode RenderTarget.Other cfg0 (Except.ok ([], [])) =
      Except.error "failed to encode skia image" :=
  ⟨(render_failures_fatal envNoBold RenderTarget.Other sd0 cfg0
      (Except.ok ([], [])) "x").2.1 rfl,
   (render_failures_fatal envNoBitmap RenderTarget.Other sd0 cfg0
      (Except.ok ([], [])) "x").2.2.2.1 rfl,
   (render_failures_fatal env0 RenderTarget.Other sd0 cfg0
      (Except.ok ([], [])) "boom").1 rfl rfl,
   (render_failures_fatal envNoEncode RenderTarget.Other sd0 cfg0
      (Except.ok ([], [])) "x").2.2.2.2.2.1
     ⟨600, 800, Transform.id, [DrawCmd.clear]⟩ [] rfl rfl⟩



/-- Mapping the warning component commutes with image production. -/
lemma render_ctx_image_map_ws (env : SkiaEnv) (rt : RenderTarget)
    (cfg : ConfigFile) (g : List Warning → List Warning)
    (closure : Except String (List DrawCmd × List Warning)) :
    render_ctx_image env rt cfg (closure.map (fun p => (p.1, g p.2))) =
      (render_ctx_image env rt cfg closure).map (fun q => (q.1, g q.2)) := by
  by_cases c1 : env.setInfoOk cfg.layout.width cfg.layout.height
  · by_cases c2 : env.fromBitmapOk
    · rcases closure with e | ⟨cmds, ws⟩
      · simp [render_ctx_image, c1, c2, Except.map]
      · cases rt
        · by_cases c3 : env.setInfoOk cfg.layout.height cfg.layout.width
          · simp [render_ctx_image, c1, c2, c3, Except.map]
          · simp [render_ctx_image, c1, c2, c3, Except.map]
        · simp [render_ctx_image, c1, c2, Except.map]
    · simp [render_ctx_image, c1, c2, Except.map]
  · simp [render_ctx_image, c1, Except.map]

/-- Mapping the warning component commutes with encoding. -/
lemma encode_step_map_ws (env : SkiaEnv) (g : List Warning → List Warning)
    (r : Except String (FinalImage × List Warning)) :
    encode_step env (r.map (fun q => (q.1, g q.2))) =
      (encode_step env r).map (fun b => (b.1, g b.2)) := by
  rcases r with e | ⟨fi, ws⟩
  · simp [encode_step, Except.map]
  · simp only [encode_step, Except.map]
    cases env.encode fi <;> simp

/-- Mapping the warning component commutes with `render_ctx`. -/
lemma render_ctx_map_ws (env : SkiaEnv) (rt : RenderTarget)
    (cfg : ConfigFile) (g : List Warning → List Warning)
    (closure : Except String (List DrawCmd × List Warning)) :
    render_ctx env rt cfg (closure.map (fun p => (p.1, g p.2))) =
      (render_ctx env rt cfg closure).map (fun b => (b.1, g b.2)) := by
  rw [render_ctx, render_ctx, render_ctx_image_map_ws, encode_step_map_ws]

/-- draw_data reads the configuration only through `layout.height`. -/
lemma draw_data_config_congr (env : SkiaEnv) (sd : StopData)
    (cfg1 cfg2 : ConfigFile) (font : Font) (sec : SectionConfig)
    (x1 x2 y : Int) (hh : cfg1.layout.height = cfg2.layout.height) :
    draw_data env sd cfg1 font sec x1 x2 y =
      draw_data env sd cfg2 font sec x1 x2 y := by
  simp only [draw_data, hh]

/-- draw_panel reads the configuration only through `layout.height`. -/
lemma draw_panel_config_congr (env : SkiaEnv) (sd : StopData)
    (cfg1 cfg2 : ConfigFile) (font : Font) (x1 x2 : Int)
    (hh : cfg1.layout.height = cfg2.layout.height) :
    ∀ (sections : List SectionConfig) (y : Int),
      draw_panel env sd cfg1 font sections x1 x2 y =
        draw_panel env sd cfg2 font sections x1 x2 y := by
  intro sections
  induction sections with
  | nil => intro y; rfl
  | cons s rest ih =>
    intro y
    rw [draw_panel, draw_panel,
      draw_data_config_congr env sd cfg1 cfg2 font s x1 x2 y hh]
    cases draw_data env sd cfg2 font s x1 x2 y with
    | error e => rfl
    | ok p =>
      obtain ⟨c1, w1, y1⟩ := p
      simp only [Bind.bind, Except.bind]
      rw [ih y1]

/-- A skipped head section contributes only its warning to a panel run. -/
lemma draw_panel_cons_skip (env : SkiaEnv) (sd : StopData) (cfg : ConfigFile)
    (font : Font) (s : SectionConfig) (L : List SectionConfig)
    (x1 x2 y : Int) (w : Warning)
    (h : draw_data env sd cfg font s x1 x2 y = Except.ok ([], [w], y)) :
    draw_panel env sd cfg font (s :: L) x1 x2 y =
      (draw_panel env sd cfg font L x1 x2 y).map
        (fun p => (p.1, w :: p.2.1, p.2.2)) := by
  rw [draw_panel, h]
  cases hp : draw_panel env sd cfg font L x1 x2 y with
  | error e => simp [hp, Bind.bind, Except.bind, Except.map]
  | ok p =>
    obtain ⟨c, ws, y2⟩ := p
    simp [hp, Bind.bind, Except.bind, Except.map]


/-- render_ctx depends on the configuration only through its dimensions. -/
lemma render_ctx_dims_congr (env : SkiaEnv) (rt : RenderTarget)
    (cfg1 cfg2 : ConfigFile)
    (closure : Except String (List DrawCmd × List Warning))
    (hw : cfg1.layout.width = cfg2.layout.width)
    (hh : cfg1.layout.height = cfg2.layout.height) :
    render_ctx env rt cfg1 closure = render_ctx env rt cfg2 closure := by
  rw [render_ctx, render_ctx]
  congr 1
  rw [render_ctx_image.eq_def, render_ctx_image.eq_def, hw, hh]

/-- C2: a section whose agency is absent from StopData, or whose direction
is absent within its agency's map, makes `stops_png` emit one structured
warning naming the agency (and the direction when the agency was found),
draw nothing for the section, leave the cursor unchanged, and keep the
render alive: the whole call returns exactly what it returns without the
section, with the warning prepended. -/
theorem missing_section_skip_and_warn (env : SkiaEnv) (rt : RenderTarget)
    (sd : StopData) (cfg : ConfigFile) (font : Font) (sec : SectionConfig)
    (x1 x2 y : Int) (L : List SectionConfig) :
    (lookupMap sd sec.agency = none →
      draw_data env sd cfg font sec x1 x2 y =
        Except.ok ([], [Warning.missingAgency sec.agency], y)) ∧
    (∀ am, lookupMap sd sec.agency = some am →
      lookupMap am sec.direction = none →
      draw_data env sd cfg font sec x1 x2 y =
        Except.ok ([], [Warning.missingDirection sec.agency sec.direction], y)) ∧
    (cfg.layout.left.sections = sec :: L →
      lookupMap sd sec.agency = none →
      stops_png env rt sd cfg =
        (stops_png env rt sd (withLeftSections cfg L)).map
          (fun r => (r.1, Warning.missingAgency sec.agency :: r.2))) := by
  refine ⟨?_, ?_, ?_⟩
  · intro hag
    exact draw_data_missing_agency env sd cfg font sec x1 x2 y hag
  · intro am hag hdir
    exact draw_data_missing_direction env sd cfg font sec x1 x2 y am hag hdir
  · intro hleft hag
    by_cases t : env.typefaceOk true
    · rw [stops_png.eq_def, stops_png.eq_def]
      simp only [t, not_true, if_false, reduceIte, withLeftSections]
      rw [hleft]
      rw [draw_panel_cons_skip env sd cfg { bold := true, size := 24 } sec L
        0 (cfg.layout.width / 2) 38 (Warning.missingAgency sec.agency)
        (draw_data_missing_agency env sd cfg { bold := true, size := 24 } sec
          0 (cfg.layout.width / 2) 38 hag)]
      rw [draw_panel_config_congr env sd
        (ConfigFile.mk (Layout.mk cfg.layout.width cfg.layout.height
          (Panel.mk L) cfg.layout.right)) cfg
        { bold := true, size := 24 } 0 (cfg.layout.width / 2) rfl L 38]
      rw [draw_panel_config_congr env sd
        (ConfigFile.mk (Layout.mk cfg.layout.width cfg.layout.height
          (Panel.mk L) cfg.layout.right)) cfg
        { bold := true, size := 24 } (cfg.layout.width / 2) cfg.layout.width rfl
        cfg.layout.right.sections 38]
      rw [render_ctx_dims_congr env rt
        (ConfigFile.mk (Layout.mk cfg.layout.width cfg.layout.height
          (Panel.mk L) cfg.layout.right)) cfg _ rfl rfl]
      have hclos :
          (match (draw_panel env sd cfg { bold := true, size := 24 } L
              0 (cfg.layout.width / 2) 38).map
              (fun p => (p.1, Warning.missingAgency sec.agency :: p.2.1, p.2.2)) with
           | Except.error e => Except.error e
           | Except.ok (lc, lw, _) =>
             match draw_panel env sd cfg { bold := true, size := 24 }
                 cfg.layout.right.sections (cfg.layout.width / 2)
                 cfg.layout.width 38 with
             | Except.error e => Except.error e
             | Except.ok (rc, rw, _) => Except.ok (lc ++ rc, lw ++ rw)) =
          ((match draw_panel env sd cfg { bold := true, size := 24 } L
              0 (cfg.layout.width / 2) 38 with
           | Except.error e => Except.error e
           | Except.ok (lc, lw, _) =>
             match draw_panel env sd cfg { bold := true, size := 24 }
                 cfg.layout.right.sections (cfg.layout.width / 2)
                 cfg.layout.width 38 with
             | Except.error e => Except.error e
             | Except.ok (rc, rw, _) =>
               Except.ok (lc ++ rc, lw ++ rw)) :
            Except String (List DrawCmd × List Warning)).map
            (fun p => (p.1, Warning.missingAgency sec.agency :: p.2)) := by
        cases draw_panel env sd cfg { bold := true, size := 24 } L
            0 (cfg.layout.width / 2) 38 with
        | error e => simp [Except.map]
        | ok p =>
          obtain ⟨lc, lw, yl⟩ := p
          cases draw_panel env sd cfg { bold := true, size := 24 }
              cfg.layout.right.sections (cfg.layout.width / 2)
              cfg.layout.width 38 with
          | error e => simp [Except.map]
          | ok q =>
            obtain ⟨rc, rw2, yr⟩ := q
            simp [Except.map]
      rw [hclos, render_ctx_map_ws]
    · simp [stops_png, t, Except.map]


/-- Configuration for the C2 witness: the left panel leads with the
missing-agency section. -/
def cfgW : ConfigFile := ⟨⟨600, 800, ⟨[secNoAgency]⟩, ⟨[sec0]⟩⟩⟩

/-- Witness for C2 at a configuration whose left panel leads with a
missing-agency section. -/
theorem missing_section_skip_and_warn_witness :
    draw_data env0 sd0 cfgW font24 secNoAgency 0 300 38 =
      Except.ok ([], [Warning.missingAgency secNoAgency.agency], 38) ∧
    draw_data env0 sd0 cfgW font24 secNoDirection 0 300 38 =
      Except.ok ([], [Warning.missingDirection secNoDirection.agency
        secNoDirection.direction], 38) ∧
    stops_png env0 RenderTarget.Other sd0 cfgW =
      (stops_png env0 RenderTarget.Other sd0 (withLeftSections cfgW [])).map
        (fun r => (r.1, Warning.missingAgency secNoAgency.agency :: r.2)) :=
  ⟨(missing_section_skip_and_warn env0 RenderTarget.Other sd0 cfgW font24
      secNoAgency 0 300 38 []).1 rfl,
   (missing_section_skip_and_warn env0 RenderTarget.Other sd0 cfgW font24
      secNoDirection 0 300 38 []).2.1 [("north", lines0)] rfl rfl,
   (missing_section_skip_and_warn env0 RenderTarget.Other sd0 cfgW font24
      secNoAgency 0 300 38 []).2.2 rfl rfl⟩

/-- C8: `stops_png` initializes each panel's vertical cursor to 38 (it is
the `stops_png_cursors` generalization applied at 38 and 38), and the two
panels' passes are independent: a panel's run reads the configuration only
through `layout.height`, so changing the left panel's sections never
changes the right panel's run (which always starts at 38), and vice
versa. -/
theorem panel_cursors_independent (env : SkiaEnv) (rt : RenderTarget)
    (sd : StopData) (cfg : ConfigFile) (font : Font)
    (L1 L2 R1 R2 SL SR : List SectionConfig) (x1 x2 y : Int) :
    stops_png env rt sd cfg = stops_png_cursors env rt sd cfg 38 38 ∧
    draw_panel env sd (withLeftSections cfg L1) font SR x1 x2 y =
      draw_panel env sd (withLeftSections cfg L2) font SR x1 x2 y ∧
    draw_panel env sd (withRightSections cfg R1) font SL x1 x2 y =
      draw_panel env sd (withRightSections cfg R2) font SL x1 x2 y := by
  refine ⟨rfl, ?_, ?_⟩
  · exact draw_panel_config_congr env sd (withLeftSections cfg L1)
      (withLeftSections cfg L2) font x1 x2 rfl SR y
  · exact draw_panel_config_congr env sd (withRightSections cfg R1)
      (withRightSections cfg R2) font x1 x2 rfl SL y


/-- Indexed characterization of the error-chain loop output: one text
command per cause, at `(100, y + 20 * i)`. -/
lemma draw_error_chain_cmds (env : SkiaEnv) (small_font : Font) :
    ∀ (chain : List String) (y : Int) (cmds : List DrawCmd),
      draw_error_chain env small_font chain y = Except.ok cmds →
      cmds.length = chain.length ∧
      ∀ (i : Nat) (s : String), chain.get? i = some s →
        ∃ r, env.measure small_font s = some r ∧
          cmds.get? i = some (DrawCmd.text ⟨s, small_font, r⟩ 100
            (y + 20 * (i : Int)) Paint.black) := by
  intro chain
  induction chain with
  | nil =>
    intro y cmds h
    simp only [draw_error_chain, Except.ok.injEq] at h
    subst h
    exact ⟨rfl, fun i s hs => absurd hs (by simp)⟩
  | cons e rest ih =>
    intro y cmds h
    rw [draw_error_chain] at h
    cases h1 : env.measure small_font e with
    | none => simp [mkTextBlob, h1, Bind.bind, Except.bind] at h
    | some r0 =>
    simp only [mkTextBlob, h1, Bind.bind, Except.bind] at h
    cases h2 : draw_error_chain env small_font rest (y + 20) with
    | error e2 => rw [h2] at h; exact absurd h (by simp)
    | ok restCmds =>
      rw [h2] at h
      simp only [Except.ok.injEq] at h
      subst h
      obtain ⟨hlen, hidx⟩ := ih (y + 20) restCmds h2
      constructor
      · simp [hlen]
      · intro i s hs
        cases i with
        | zero =>
          simp only [List.get?] at hs
          obtain rfl : e = s := by injection hs
          refine ⟨r0, h1, ?_⟩
          simp
        | succ j =>
          simp only [List.get?] at hs
          obtain ⟨r, hr, hcmd⟩ := hidx j s hs
          refine ⟨r, hr, ?_⟩
          have harith : y + 20 + 20 * (j : Int) = y + 20 * (((j + 1 : Nat)) : Int) := by
            push_cast; ring
          rw [harith] at hcmd
          simpa only [List.get?] using hcmd

/-- The image producer never succeeds on a failed closure. -/
lemma render_ctx_image_error_closure (env : SkiaEnv) (rt : RenderTarget)
    (cfg : ConfigFile) (e : String) (fi : FinalImage) (ws : List Warning) :
    render_ctx_image env rt cfg (Except.error e) ≠ Except.ok (fi, ws) := by
  rw [render_ctx_image.eq_def]
  split
  · simp
  · split
    · simp
    · simp

/-- Content of a successful image production run: the clear command
followed by the closure's commands. -/
lemma render_ctx_image_content (env : SkiaEnv) (rt : RenderTarget)
    (cfg : ConfigFile) (cmds : List DrawCmd) (ws0 : List Warning)
    (fi : FinalImage) (ws : List Warning)
    (h : render_ctx_image env rt cfg (Except.ok (cmds, ws0)) =
      Except.ok (fi, ws)) :
    fi.content = DrawCmd.clear :: cmds := by
  by_cases c1 : env.setInfoOk cfg.layout.width cfg.layout.height
  · by_cases c2 : env.fromBitmapOk
    · cases rt
      · by_cases c3 : env.setInfoOk cfg.layout.height cfg.layout.width
        · simp only [render_ctx_image, c1, c2, c3, not_true, reduceIte,
            Except.ok.injEq, Prod.mk.injEq] at h
          obtain ⟨hfi, -⟩ := h
          rw [← hfi]
        · simp [render_ctx_image, c1, c2, c3] at h
      · simp only [render_ctx_image, c1, c2, not_true, reduceIte,
          reduceCtorEq, if_false, ite_false, Except.ok.injEq, Prod.mk.injEq] at h
        obtain ⟨hfi, -⟩ := h
        rw [← hfi]
    · simp [render_ctx_image, c1, c2] at h
  · simp [render_ctx_image, c1] at h

/-- C5: `error_png` draws the "ERROR" headline at (100, 200) in the 36pt
normal font and the i-th cause message at (100, 250 + 20 * i) in the 12pt
font, in source chain order; and the normal pipeline's typeface failure
(for every StopData) leaves `error_png` unaffected, which takes no
StopData at all. -/
theorem error_png_layout (env : SkiaEnv) (rt : RenderTarget)
    (cfg : ConfigFile) (chain : List String) :
    (∀ cmds, draw_error_chain env ⟨false, 12⟩ chain 250 = Except.ok cmds →
      cmds.length = chain.length ∧
      ∀ (i : Nat) (s : String), chain.get? i = some s →
        ∃ r, env.measure ⟨false, 12⟩ s = some r ∧
          cmds.get? i = some (DrawCmd.text ⟨s, ⟨false, 12⟩, r⟩ 100
            (250 + 20 * (i : Int)) Paint.black)) ∧
    (∀ fi ws, error_png_image env rt cfg chain = Except.ok (fi, ws) →
      ∃ rE chainCmds,
        env.measure ⟨false, 36⟩ "ERROR" = some rE ∧
        draw_error_chain env ⟨false, 12⟩ chain 250 = Except.ok chainCmds ∧
        fi.content = DrawCmd.clear ::
          DrawCmd.text ⟨"ERROR", ⟨false, 36⟩, rE⟩ 100 200 Paint.black ::
          chainCmds) ∧
    (∀ sd, env.typefaceOk true = false →
      stops_png env rt sd cfg =
        Except.error "failed to construct skia typeface") := by
  refine ⟨?_, ?_, ?_⟩
  · intro cmds h
    exact draw_error_chain_cmds env ⟨false, 12⟩ chain 250 cmds h
  · intro fi ws h
    rw [error_png_image.eq_def] at h
    split at h
    · exact absurd h (by simp)
    · cases hm : env.measure ⟨false, 36⟩ "ERROR" with
      | none => simp [mkTextBlob, hm] at h
      | some rE =>
        simp only [mkTextBlob, hm] at h
        cases hchain : draw_error_chain env ⟨false, 12⟩ chain 250 with
        | error e =>
          rw [hchain] at h
          exact absurd h (render_ctx_image_error_closure env rt cfg e fi ws)
        | ok chainCmds =>
          rw [hchain] at h
          refine ⟨rE, chainCmds, rfl, rfl, ?_⟩
          exact render_ctx_image_content env rt cfg _ _ fi ws h
  · intro sd ht
    simp [stops_png, ht]

/-- Command list of a successful `draw_error_chain` run. -/
def okChainCmds (r : Except String (List DrawCmd)) : List DrawCmd :=
  match r with
  | Except.ok c => c
  | Except.error _ => []

/-- The chain run backing the C5 witness. -/
def c5_run : Except String (List DrawCmd) :=
  draw_error_chain env0 font12 ["a", "b", "c"] 250

/-- Witness for C5: a three-message chain yields three commands with the
third at height 250 + 40 = 290, while `stops_png` fails for the bold
typeface in the same environment family. -/
theorem error_png_layout_witness :
    (okChainCmds c5_run).length = (["a", "b", "c"] : List String).length ∧
    (∃ r, env0.measure font12 "c" = some r ∧
      (okChainCmds c5_run).get? 2 = some (DrawCmd.text ⟨"c", font12, r⟩ 100
        (250 + 20 * ((2 : Nat) : Int)) Paint.black)) ∧
    stops_png envNoBold RenderTarget.Other sd0 cfg0 =
      Except.error "failed to construct skia typeface" := by
  have h := (error_png_layout env0 RenderTarget.Other cfg0 ["a", "b", "c"]).1
    (okChainCmds c5_run) rfl
  have h3 := (error_png_layout envNoBold RenderTarget.Other cfg0
    ["a", "b", "c"]).2.2 sd0 rfl
  exact ⟨h.1, h.2 2 "c" rfl, h3⟩


end BartRender
